import Mathlib

/-!
Shallow embedding of the `My-Python-Library` repository:
the `hexbytes` byte-sequence class (`src/hexbytes.py`), the class
rewriters `inherit_methods` and `immutify_methods`
(`src/class_decorators.py`), the `decorator_varargs` adapter
(`src/function_decorators.py`) and the helper predicate
`seq_holdstype` (`src/submodules/helper.py`).

Python exceptions are modelled by `PyErr`, fallible operations return
`Except PyErr _`, byte sequences are `List Nat` (each element a byte
value), and Python's dynamic values — where the rewriters inspect the
runtime type of a method result — are modelled by `PyVal`, a value
tagged with its runtime type `PyType` (a type is identified by its
method-resolution-order list of type names).
-/

/-- Model of the Python exception classes raised by the library. -/
inductive PyErr where
  | typeError (msg : String)
  | valueError (msg : String)
  | indexError (msg : String)
  | runtimeError (msg : String)
  deriving DecidableEq, Repr

/-- A Python runtime type, identified by its method-resolution order:
the type's own name first, then its bases up to `"object"`. -/
structure PyType where
  mro : List String
  deriving DecidableEq, Repr

/-- The type's own name (head of its MRO). -/
def PyType.name (t : PyType) : String := t.mro.headD ""

/-- Python `issubclass(cls, typ)`: `typ` appears in `cls`'s MRO. -/
def issubclass (cls typ : PyType) : Bool := cls.mro.contains typ.name

def objectType : PyType := ⟨["object"]⟩

def bytearrayType : PyType := ⟨["bytearray", "object"]⟩

def hexbytesType : PyType := ⟨["hexbytes", "bytearray", "object"]⟩

def intType : PyType := ⟨["int", "object"]⟩

def noneType : PyType := ⟨["NoneType", "object"]⟩

def listType : PyType := ⟨["list", "object"]⟩

def tupleType : PyType := ⟨["tuple", "object"]⟩

def setType : PyType := ⟨["set", "object"]⟩

def frozensetType : PyType := ⟨["frozenset", "object"]⟩

/-- A Python runtime value, tagged with its runtime type where the
rewriters need to inspect it: byte sequences (instances of `bytearray`
or of a class derived from it), integers, `None`, plain objects of any
other non-collection type, and the four collection kinds the helper
`seq_holdstype` recognises. -/
inductive PyVal where
  | bytesLike (type : PyType) (data : List Nat)
  | intVal (n : Int)
  | noneVal
  | obj (type : PyType)
  | listVal (elems : List PyVal)
  | tupleVal (elems : List PyVal)
  | setVal (elems : List PyVal)
  | frozensetVal (elems : List PyVal)

/-- Python `type(v)` on the modelled values. -/
def PyVal.typeOf : PyVal → PyType
  | .bytesLike t _ => t
  | .intVal _ => intType
  | .noneVal => noneType
  | .obj t => t
  | .listVal _ => listType
  | .tupleVal _ => tupleType
  | .setVal _ => setType
  | .frozensetVal _ => frozensetType

/-- `helper.seq_holdstype(obj)` with the default `cls=None`
(src/submodules/helper.py): `isinstance(obj, (list, tuple, set,
frozenset))`, with no element check. -/
def seq_holdstype : PyVal → Bool
  | .listVal _ | .tupleVal _ | .setVal _ | .frozensetVal _ => true
  | _ => false

/-- `issuperclass(obj, cls)` from `inherit_methods.apply_wrapper`
(src/class_decorators.py): `issubclass(cls, type(obj))`. -/
def issuperclass (objv : PyVal) (cls : PyType) : Bool :=
  issubclass cls objv.typeOf

/-- Reading a collection's elements as byte values, as the `bytearray`
constructor does with an iterable of integers: each element must be an
integer in `range(0, 256)`. -/
def byteElems : List PyVal → Except PyErr (List Nat)
  | [] => .ok []
  | .intVal m :: xs =>
      if 0 ≤ m && m < 256 then (byteElems xs).map (fun ds => m.toNat :: ds)
      else .error (.valueError "bytes must be in range(0, 256)")
  | _ :: _ => .error (.typeError "an integer is required")

/-- Calling `cls(result)` for `cls` a class derived from `bytearray`:
the `bytearray` constructor accepts a bytes-like object (copying its
bytes), a non-negative integer count (zero-filled), or a collection of
byte-valued integers; anything else raises `TypeError`. -/
def clsNew (cls : PyType) (v : PyVal) : Except PyErr PyVal :=
  match v with
  | .bytesLike _ data => .ok (.bytesLike cls data)
  | .intVal n =>
      if n < 0 then .error (.valueError "negative count")
      else .ok (.bytesLike cls (List.replicate n.toNat 0))
  | .listVal xs | .tupleVal xs | .setVal xs | .frozensetVal xs =>
      (byteElems xs).map (fun ds => PyVal.bytesLike cls ds)
  | _ => .error (.typeError "cannot convert object to bytearray")

/-- Element-wise downcast of `inherit_methods.apply_wrapper.wrapped_func`'s
collection branch (src/class_decorators.py):
`(cls(x) if issuperclass(x, cls) else x for x in result)`. -/
def mapDowncast (cls : PyType) : List PyVal → Except PyErr (List PyVal)
  | [] => .ok []
  | x :: xs => do
      let x' ← if issuperclass x cls then clsNew cls x else pure x
      let xs' ← mapDowncast cls xs
      pure (x' :: xs')

/-- The result post-processing performed by
`inherit_methods.apply_wrapper.wrapped_func` (src/class_decorators.py)
on the raw result of the superclass method:

```
if issuperclass(result, cls): return cls(result)
elif helper.seq_holdstype(result):
    gen = (cls(x) if issuperclass(x, cls) else x for x in result)
    return type(result)(gen)
else: return result
```
-/
def downcastResult (cls : PyType) (result : PyVal) : Except PyErr PyVal :=
  if issuperclass result cls then
    clsNew cls result
  else if seq_holdstype result then
    match result with
    | .listVal xs => (mapDowncast cls xs).map PyVal.listVal
    | .tupleVal xs => (mapDowncast cls xs).map PyVal.tupleVal
    | .setVal xs => (mapDowncast cls xs).map PyVal.setVal
    | .frozensetVal xs => (mapDowncast cls xs).map PyVal.frozensetVal
    | _ => .ok result
  else
    .ok result

/-- The whole wrapper `inherit_methods.apply_wrapper.wrapped_func`
installed on the rewritten class: call the captured superclass
implementation, then post-process its raw result. -/
def inherit_wrapped (cls : PyType)
    (super_method : PyVal → List PyVal → Except PyErr PyVal)
    (self : PyVal) (args : List PyVal) : Except PyErr PyVal := do
  let result ← super_method self args
  downcastResult cls result

/-- `default_ignores` from src/class_decorators.py, exactly as the
Python tuple literal evaluates: the source has no comma between
`'__init__'` and `'__len__'`, so Python's adjacent-string-literal
concatenation fuses them into the single element `"__init____len__"`. -/
def default_ignores : List String :=
  ["__delitem__", "__getitem__", "__setitem__",
   "__del__", "__new__", "__init__" ++ "__len__",
   "__alloc__", "__contains__",
   "__repr__", "__str__", "__iter__"]

/-- A heap object: an identity (distinguishing aliases of equal
content) together with its content. -/
structure Obj (α : Type) where
  id : Nat
  content : α
  deriving DecidableEq, Repr

/-- `copy.deepcopy(self)`: a fresh object (new identity) with the
same content. -/
def deepcopy {α : Type} (o : Obj α) (fresh : Nat) : Obj α :=
  ⟨fresh, o.content⟩

/-- The wrapper `immutify_methods.apply_wrapper.wrapped_func`
(src/class_decorators.py):

```
copy_obj = copy.deepcopy(self)
res = func(copy_obj, *args, **kwargs)
if res is not None:
    raise RuntimeError(f"Immutified method returned a value: {res}")
return copy_obj
```

A method `func` is modelled as a state transformer on the receiver's
content that may raise, returning the mutated content and the method's
return value (`none` = Python `None`).  The wrapper's result is the
pair (state of the original receiver after the call, outcome). -/
def immutify_wrapped {α : Type}
    (func : α → List PyVal → Except PyErr (α × Option PyVal))
    (self : Obj α) (fresh : Nat) (args : List PyVal) :
    Obj α × Except PyErr (Obj α) :=
  let copy_obj := deepcopy self fresh
  match func copy_obj.content args with
  | .error e => (self, .error e)
  | .ok (c, res) =>
      match res with
      | some _ => (self, .error (.runtimeError "Immutified method returned a value"))
      | none => (self, .ok ⟨copy_obj.id, c⟩)

/-- A positional or keyword argument handed to an adapted decorator:
either a callable (a function or class, the only kind accepted as a
decoration target) or a plain non-callable value. -/
inductive PyArg (τ κ : Type) where
  | callable (target : τ)
  | value (v : κ)

/-- What a call to the adapted decorator produces: either the rewriting
function has already been applied to a target, or its application is
pending, waiting for the target. -/
inductive DecoResult (τ ρ : Type) where
  | applied (r : ρ)
  | pending (g : τ → ρ)

/-- `decorator_varargs.wrapped_decorator` (src/function_decorators.py):

```
if len(args) == 1 and len(kwargs) == 0 and callable(args[0]):
    return decorator(args[0])
else:
    return lambda target: decorator(target, *args, **kwargs)
```
-/
def wrapped_decorator {τ κ ρ : Type}
    (decorator : τ → List (PyArg τ κ) → List (String × PyArg τ κ) → ρ)
    (args : List (PyArg τ κ)) (kwargs : List (String × PyArg τ κ)) :
    DecoResult τ ρ :=
  match args, kwargs with
  | [PyArg.callable t], [] => .applied (decorator t [] [])
  | _, _ => .pending (fun target => decorator target args kwargs)

/-- Python `str.upper()` restricted to ASCII text (the only text the
library's hex tokens use): uppercase each character. -/
def pyUpper (s : String) : String := String.mk (s.toList.map Char.toUpper)

/-- The characters Python `str.split()` (no arguments) splits on. -/
def pySpaceChars : List Char := [' ', '\t', '\n', '\r', '\x0b', '\x0c']

/-- Whether `str.split()` treats `c` as whitespace. -/
def isPySpace (c : Char) : Bool := pySpaceChars.contains c

/-- Worker for `pySplit`: `cur` holds the characters of the token being
read, in reverse. -/
def pySplitAux (cur : List Char) : List Char → List (List Char)
  | [] => if cur.isEmpty then [] else [cur.reverse]
  | c :: rest =>
      if isPySpace c then
        if cur.isEmpty then pySplitAux [] rest
        else cur.reverse :: pySplitAux [] rest
      else pySplitAux (c :: cur) rest

/-- Python `str.split()` with no arguments: split on runs of whitespace,
discarding empty pieces. -/
def pySplit (s : String) : List (List Char) :=
  pySplitAux [] s.toList

/-- `tok` occurs contiguously in `s` (character-list view). -/
def charsInfix (tok : List Char) : List Char → Bool
  | [] => tok.isEmpty
  | c :: rest => tok.isPrefixOf (c :: rest) || charsInfix tok rest

/-- Python's `tok in valid` on strings: substring containment. -/
def pyInStr (tok : List Char) (s : String) : Bool := charsInfix tok s.toList

def valid_chars : String := "0123456789ABCDEF"

/-- `hexbytes.ishexbyte` (src/hexbytes.py):

```
hex_chars = hex_str.upper().split()
valid_chars = "0123456789ABCDEF"
return len(hex_chars) == 2 \
    and hex_chars[0] in valid_chars \
    and hex_chars[1] in valid_chars
```

Note `hex_chars` is the list of whitespace-separated tokens and the
`in` tests are substring tests on those tokens. -/
def ishexbyte (hex_str : String) : Bool :=
  let hex_chars := pySplit (pyUpper hex_str)
  hex_chars.length == 2
    && pyInStr (hex_chars.getD 0 []) valid_chars
    && pyInStr (hex_chars.getD 1 []) valid_chars

/-- `hexbytes.enforcehexbyte` (src/hexbytes.py): `TypeError` when the
argument is not a string (in particular `None`), `ValueError` when it
is a string `ishexbyte` rejects. -/
def enforcehexbyte (hex_str : Option String) : Except PyErr Unit :=
  match hex_str with
  | none => .error (.typeError "Invalid hex string: None")
  | some s =>
      if ishexbyte s then .ok ()
      else .error (.valueError ("Invalid hex string: " ++ s))

/-- Value of an ASCII hexadecimal digit, by code point: `0`-`9` are
48-57, `A`-`F` are 65-70, `a`-`f` are 97-102. -/
def hexDigit? (c : Char) : Option Nat :=
  let n := c.toNat
  if 48 ≤ n ∧ n ≤ 57 then some (n - 48)
  else if 97 ≤ n ∧ n ≤ 102 then some (n - 87)
  else if 65 ≤ n ∧ n ≤ 70 then some (n - 55)
  else none

/-- Parser loop of `bytearray.fromhex`: pairs of hexadecimal digits,
whitespace permitted between pairs but not inside a pair. -/
def fromhexAux : List Char → Option (List Nat)
  | [] => some []
  | ' ' :: rest => fromhexAux rest
  | c1 :: c2 :: rest => do
      let hi ← hexDigit? c1
      let lo ← hexDigit? c2
      let ds ← fromhexAux rest
      some ((16 * hi + lo) :: ds)
  | _ => none

/-- `bytearray.fromhex` as `hexbytes` inherits it: decode a hex string
to bytes, `ValueError` on malformed input. -/
def fromhex (s : String) : Except PyErr (List Nat) :=
  match fromhexAux s.toList with
  | some ds => .ok ds
  | none => .error (.valueError "non-hexadecimal number found in fromhex()")

/-- `bytearray.rjust(width, fill)`: the fill argument must be a single
byte; pad on the left up to `width` (no-op when already long enough). -/
def bytearray_rjust (self : List Nat) (width : Nat) (fill : List Nat) :
    Except PyErr (List Nat) :=
  match fill with
  | [b] => .ok (List.replicate (width - self.length) b ++ self)
  | _ => .error (.typeError "rjust() argument 2 must be a byte string of length 1")

/-- `bytearray.ljust(width, fill)`: as `rjust`, padding on the right. -/
def bytearray_ljust (self : List Nat) (width : Nat) (fill : List Nat) :
    Except PyErr (List Nat) :=
  match fill with
  | [b] => .ok (self ++ List.replicate (width - self.length) b)
  | _ => .error (.typeError "ljust() argument 2 must be a byte string of length 1")

/-- `hexbytes.__padhex` (src/hexbytes.py):

```
if sign_ext:
    fill_hex = "00" if self[0] < 128 else "ff"
else:
    self.enforcehexbyte(fill_hex)
if pad_left:
    return self.rjust(width, self.fromhex(fill_hex))
else:
    return self.ljust(width, self.fromhex(fill_hex))
```

`self[0]` on an empty sequence raises `IndexError`. -/
def padhex (self : List Nat) (width : Nat) (fill_hex : Option String)
    (pad_left : Bool) (sign_ext : Bool) : Except PyErr (List Nat) := do
  let fh ←
    if sign_ext then
      match self with
      | [] => Except.error (PyErr.indexError "bytearray index out of range")
      | b :: _ => Except.ok (if b < 128 then "00" else "ff")
    else do
      enforcehexbyte fill_hex
      Except.ok (fill_hex.getD "")
  let fill ← fromhex fh
  if pad_left then bytearray_rjust self width fill
  else bytearray_ljust self width fill

/-- `hexbytes.lpad` (src/hexbytes.py):

```
if fill_hex is None and not sign_ext:
    raise ValueError("Must provide fill_hex if sign_ext=False")
return self.__padhex(width, fill_hex, pad_left=True, sign_ext=sign_ext)
```
-/
def lpad (self : List Nat) (width : Nat) (fill_hex : Option String)
    (sign_ext : Bool) : Except PyErr (List Nat) :=
  if fill_hex.isNone && !sign_ext then
    .error (.valueError "Must provide fill_hex if sign_ext=False")
  else
    padhex self width fill_hex true sign_ext

/-- `hexbytes.rpad` (src/hexbytes.py): pad on the right, never with
sign extension. -/
def rpad (self : List Nat) (width : Nat) (fill_hex : Option String) :
    Except PyErr (List Nat) :=
  padhex self width fill_hex false false

/-- `bytearray.join`: `sep.join([a, b, c]) = a + sep + b + sep + c`. -/
def bytearray_join (sep : List Nat) (parts : List (List Nat)) : List Nat :=
  (List.intersperse sep parts).flatten

/-- Reading `join`'s iterable argument: each element must be bytes-like. -/
def partsOf : List PyVal → Except PyErr (List (List Nat))
  | [] => .ok []
  | .bytesLike _ d :: xs => (partsOf xs).map (fun ps => d :: ps)
  | _ :: _ => .error (.typeError "sequence item: expected a bytes-like object")

/-- `bytearray.join` as the captured superclass method of the rewritten
`hexbytes.join`: the receiver is the separator, the single argument an
iterable whose elements must be bytes-like; the result is always an
exact `bytearray`. -/
def join_super (self : PyVal) (args : List PyVal) : Except PyErr PyVal :=
  match self, args with
  | .bytesLike _ sep, [.listVal xs] =>
      (partsOf xs).map (fun parts => PyVal.bytesLike bytearrayType (bytearray_join sep parts))
  | _, _ => .error (.typeError "can only join an iterable")

/-- `hexbytes.join` after the inner `@inherit_methods` rewrite
(src/hexbytes.py): the inherited `bytearray.join` wrapped by
`inherit_wrapped` for the class `hexbytes`. -/
def hexbytes_join_inherit (self : PyVal) (args : List PyVal) :
    Except PyErr PyVal :=
  inherit_wrapped hexbytesType join_super self args

/-- `hexbytes.join` as finally installed by `@immutify_methods({'join'})`
on top of the `inherit_methods` rewrite (src/hexbytes.py): the class
attribute `join` fetched by `immutify_methods` is `hexbytes_join_inherit`,
a non-mutating method whose value it treats as the Python return value. -/
def hexbytes_join (self : Obj (List Nat)) (fresh : Nat) (args : List PyVal) :
    Obj (List Nat) × Except PyErr (Obj (List Nat)) :=
  immutify_wrapped
    (fun content args =>
      (hexbytes_join_inherit (.bytesLike hexbytesType content) args).map
        (fun r => (content, some r)))
    self fresh args

/-- C1: the spec claims `ishexbyte("a0")` is true and that, in general,
`ishexbyte` accepts exactly the strings that case-fold and
whitespace-split to two hexadecimal digit characters.  Evaluating the
code: `"a0"` splits into the single token `"A0"`, so the
two-token length test fails and `ishexbyte "a0" = false`; the quirk
input `"a 0"` is accepted; and `"ab cd"` — four hex characters — is
accepted because each token is tested by substring containment in
`"0123456789ABCDEF"`. -/
theorem C1_ishexbyte_eval :
    ishexbyte "a0" = false ∧ ishexbyte "a 0" = true ∧
    ishexbyte "zz" = false ∧ ishexbyte "a" = false ∧
    ishexbyte "ab cd" = true :=
  ⟨rfl, rfl, rfl, rfl, rfl⟩

/-- C2: of the method names the spec lists for the default ignore set,
all are elements of `default_ignores` except the constructor name
`"__init__"` and the length name `"__len__"`: the source tuple lacks a
comma between them, so they appear only fused as the single element
`"__init____len__"`. -/
theorem C2_default_ignores_eval :
    "__getitem__" ∈ default_ignores ∧ "__setitem__" ∈ default_ignores ∧
    "__delitem__" ∈ default_ignores ∧ "__del__" ∈ default_ignores ∧
    "__new__" ∈ default_ignores ∧ "__contains__" ∈ default_ignores ∧
    "__repr__" ∈ default_ignores ∧ "__str__" ∈ default_ignores ∧
    "__iter__" ∈ default_ignores ∧
    "__init__" ∉ default_ignores ∧ "__len__" ∉ default_ignores ∧
    "__init__" ++ "__len__" ∈ default_ignores := by
  decide

/-- C7: for every rewriting function and target, the direct form
`adapted(t)` and the configured no-argument form `adapted()(t)` both
invoke the rewriting function on the target with no extra arguments,
hence produce identical results. -/
theorem C7_varargs_equiv {τ κ ρ : Type}
    (decorator : τ → List (PyArg τ κ) → List (String × PyArg τ κ) → ρ)
    (t : τ) :
    wrapped_decorator decorator [PyArg.callable t] [] =
      DecoResult.applied (decorator t [] []) ∧
    ∃ g, wrapped_decorator decorator ([] : List (PyArg τ κ)) [] =
        DecoResult.pending g ∧ g t = decorator t [] [] :=
  ⟨rfl, fun target => decorator target [] [], rfl, rfl⟩

/-- C9: calling `lpad` with no fill byte and `sign_ext=False` fails
with the value error raised by `lpad`'s initial guard, for every
receiver and width — before any padding is attempted. -/
theorem C9_lpad_missing_fill (self : List Nat) (width : Nat) :
    lpad self width none false =
      Except.error (PyErr.valueError "Must provide fill_hex if sign_ext=False") :=
  rfl

/-- C10: on the empty byte sequence, `lpad` with `sign_ext=True`
(whether or not a fill byte is also passed) raises the index error
coming from reading `self[0]` to derive the fill value — not a value
error. -/
theorem C10_lpad_empty_sign_ext :
    (∀ width, lpad [] width none true =
      Except.error (PyErr.indexError "bytearray index out of range")) ∧
    ∀ width s, lpad [] width (some s) true =
      Except.error (PyErr.indexError "bytearray index out of range") :=
  ⟨fun _ => rfl, fun _ _ => rfl⟩

/-- C4: a method wrapped by `immutify_methods` leaves the receiver —
identity and content — untouched, and whenever the call returns
normally the returned object is a different object (fresh identity)
whose content is the original content with the method's in-place
effect applied. -/
theorem C4_immutify_frame {α : Type}
    (func : α → List PyVal → Except PyErr (α × Option PyVal))
    (self : Obj α) (fresh : Nat) (args : List PyVal)
    (hfresh : fresh ≠ self.id) :
    (immutify_wrapped func self fresh args).1 = self ∧
    ∀ r, (immutify_wrapped func self fresh args).2 = Except.ok r →
      r.id ≠ self.id ∧ func self.content args = Except.ok (r.content, none) := by
  cases h : func self.content args with
  | error e =>
      refine ⟨?_, ?_⟩ <;> simp [immutify_wrapped, deepcopy, h]
  | ok p =>
      obtain ⟨c, res⟩ := p
      cases res with
      | some v =>
          refine ⟨?_, ?_⟩ <;> simp [immutify_wrapped, deepcopy, h]
      | none =>
          refine ⟨by simp [immutify_wrapped, deepcopy, h], ?_⟩
          intro r hr
          have hval : (immutify_wrapped func self fresh args).2 =
              Except.ok ⟨fresh, c⟩ := by
            simp [immutify_wrapped, deepcopy, h]
          rw [hval] at hr
          cases hr
          exact ⟨hfresh, rfl⟩

/-- C4 witness: a concrete in-place method (append the byte 7). -/
def bumpFunc : List Nat → List PyVal → Except PyErr (List Nat × Option PyVal) :=
  fun c _ => .ok (c.concat 7, none)

theorem C4_immutify_frame_witness :
    ((1 : Nat) ≠ (Obj.mk 0 [1, 2]).id) ∧
    ((immutify_wrapped bumpFunc ⟨0, [1, 2]⟩ 1 []).1 = ⟨0, [1, 2]⟩ ∧
      ∀ r, (immutify_wrapped bumpFunc ⟨0, [1, 2]⟩ 1 []).2 = Except.ok r →
        r.id ≠ (Obj.mk 0 [1, 2] : Obj (List Nat)).id ∧
        bumpFunc [1, 2] [] = Except.ok (r.content, none)) :=
  ⟨by decide, C4_immutify_frame bumpFunc ⟨0, [1, 2]⟩ 1 [] (by decide)⟩

/-- C6: the `immutify_methods` wrapper raises the contract-violation
runtime error exactly when the wrapped method's return value is not the
`None` sentinel; when it is the sentinel, the wrapper returns the
(possibly mutated) deep copy. -/
theorem C6_immutify_return_contract {α : Type}
    (func : α → List PyVal → Except PyErr (α × Option PyVal))
    (self : Obj α) (fresh : Nat) (args : List PyVal)
    (c : α) (res : Option PyVal)
    (h : func self.content args = Except.ok (c, res)) :
    (immutify_wrapped func self fresh args).2 =
      match res with
      | some _ => Except.error (PyErr.runtimeError "Immutified method returned a value")
      | none => Except.ok ⟨fresh, c⟩ := by
  cases res <;> simp [immutify_wrapped, deepcopy, h]

/-- C6 witness: a concrete method that returns a value. -/
def retFunc : List Nat → List PyVal → Except PyErr (List Nat × Option PyVal) :=
  fun c _ => .ok (c, some (PyVal.intVal 0))

theorem C6_immutify_return_contract_witness :
    retFunc [3] [] = Except.ok ([3], some (PyVal.intVal 0)) ∧
    (immutify_wrapped retFunc ⟨0, [3]⟩ 1 []).2 =
      Except.error (PyErr.runtimeError "Immutified method returned a value") :=
  ⟨rfl, C6_immutify_return_contract retFunc ⟨0, [3]⟩ 1 [] [3]
    (some (PyVal.intVal 0)) rfl⟩

/-- `partsOf` recovers the byte lists of a well-formed `join` argument. -/
theorem partsOf_map (parts : List (List Nat)) :
    partsOf (parts.map (PyVal.bytesLike bytearrayType)) = Except.ok parts := by
  induction parts with
  | nil => rfl
  | cons p ps ih => simp [partsOf, ih, Except.map]

/-- C5: no call of the rewritten `hexbytes.join` ever returns normally:
the inner `inherit_methods` wrapper turns `bytearray.join`'s exact
`bytearray` result into a `hexbytes` value, and the outer
`immutify_methods` wrapper treats that non-`None` return value as a
fatal contract violation; with any well-formed argument the raised
error is exactly the contract-violation runtime error. -/
theorem C5_join_never_succeeds (self : Obj (List Nat)) (fresh : Nat)
    (args : List PyVal) :
    (∃ e, (hexbytes_join self fresh args).2 = Except.error e) ∧
    ∀ parts : List (List Nat),
      (hexbytes_join self fresh
          [PyVal.listVal (parts.map (PyVal.bytesLike bytearrayType))]).2 =
        Except.error (PyErr.runtimeError "Immutified method returned a value") := by
  constructor
  · cases h : hexbytes_join_inherit (PyVal.bytesLike hexbytesType self.content) args with
    | error e =>
        exact ⟨e, by simp [hexbytes_join, immutify_wrapped, deepcopy, h, Except.map]⟩
    | ok r =>
        exact ⟨PyErr.runtimeError "Immutified method returned a value",
          by simp [hexbytes_join, immutify_wrapped, deepcopy, h, Except.map]⟩
  · intro parts
    have hps : join_super (PyVal.bytesLike hexbytesType self.content)
        [PyVal.listVal (parts.map (PyVal.bytesLike bytearrayType))] =
        Except.ok (PyVal.bytesLike bytearrayType (bytearray_join self.content parts)) := by
      simp [join_super, partsOf_map, Except.map]
    have h : hexbytes_join_inherit (PyVal.bytesLike hexbytesType self.content)
        [PyVal.listVal (parts.map (PyVal.bytesLike bytearrayType))] =
        Except.ok (PyVal.bytesLike hexbytesType (bytearray_join self.content parts)) := by
      unfold hexbytes_join_inherit inherit_wrapped
      rw [hps]
      rfl
    simp [hexbytes_join, immutify_wrapped, deepcopy, h, Except.map]

/-- C8: on a non-empty byte sequence, `lpad` with `sign_ext=True` pads
on the left with the byte `0x00` when the first byte is below 128 and
with `0xff` otherwise, whatever fill argument was passed; in
particular the spec's two examples hold. -/
theorem C8_lpad_sign_ext (b : Nat) (rest : List Nat) (width : Nat)
    (fill_hex : Option String) :
    lpad (b :: rest) width fill_hex true =
      Except.ok (List.replicate (width - (b :: rest).length)
        (if b < 128 then 0 else 255) ++ (b :: rest)) ∧
    lpad [0x01, 0xff] 4 none true = Except.ok [0x00, 0x00, 0x01, 0xff] ∧
    lpad [0x81, 0x00] 4 none true = Except.ok [0xff, 0xff, 0x81, 0x00] := by
  refine ⟨?_, rfl, rfl⟩
  have h00 : fromhex "00" = Except.ok [0] := rfl
  have hff : fromhex "ff" = Except.ok [255] := rfl
  by_cases hb : b < 128
  · simp only [lpad, padhex, hb]
    simp only [Bool.and_false, Bool.not_true, Bool.if_false_left]
    rfl
  · simp only [lpad, padhex, hb]
    simp only [Bool.and_false, Bool.not_true, Bool.if_false_left]
    rfl

/-- C3 counterexample: the claim says a raw result whose type is not
exactly the immediate superclass is returned unchanged.  For the class
`hexbytes` (immediate superclass `bytearray`) and a raw result of type
`object`, the wrapper's `issubclass(cls, type(result))` test still
succeeds — `object` is in `hexbytes`'s ancestry — so the wrapper
attempts `hexbytes(result)` and raises, instead of returning the
result unchanged. -/
theorem C3_exact_type_counterexample :
    (PyVal.obj objectType).typeOf ≠ bytearrayType ∧
    downcastResult hexbytesType (PyVal.obj objectType) ≠
      Except.ok (PyVal.obj objectType) := by
  refine ⟨by decide, ?_⟩
  intro hcontr
  have h : downcastResult hexbytesType (PyVal.obj objectType) =
      Except.error (PyErr.typeError "cannot convert object to bytearray") := rfl
  rw [h] at hcontr
  exact Except.noConfusion hcontr

/-- Elements the wrapper's per-element test rejects are kept as they
are by the collection branch. -/
theorem mapDowncast_noop (cls : PyType) (xs : List PyVal)
    (h : ∀ x ∈ xs, cls.mro.contains x.typeOf.name = false) :
    mapDowncast cls xs = Except.ok xs := by
  induction xs with
  | nil => rfl
  | cons x xs ih =>
      have hx : issuperclass x cls = false := h x (by simp)
      have ih' := ih (fun y hy => h y (by simp [hy]))
      simp [mapDowncast, hx, ih']

/-- C3 as amended: the wrapper reconstructs a new `cls` instance
whenever `cls` is a subclass of the raw result's type — the result's
type is `cls` itself or any of its ancestors, not only the immediate
superclass — and in the collection branch rebuilds exactly the
elements passing that same test; a raw result (or element) whose type
lies outside `cls`'s ancestry is returned unchanged. -/
theorem C3_downcast_characterization (cls t : PyType) (d : List Nat)
    (v : PyVal) (xs : List PyVal)
    (ht : cls.mro.contains t.name = true)
    (hv : cls.mro.contains v.typeOf.name = false)
    (hvseq : seq_holdstype v = false)
    (hlist : cls.mro.contains listType.name = false)
    (hxs : ∀ x ∈ xs, cls.mro.contains x.typeOf.name = false) :
    downcastResult cls (PyVal.bytesLike t d) =
      Except.ok (PyVal.bytesLike cls d) ∧
    downcastResult cls v = Except.ok v ∧
    downcastResult cls (PyVal.listVal xs) = Except.ok (PyVal.listVal xs) ∧
    downcastResult cls (PyVal.listVal [PyVal.bytesLike t d, v]) =
      Except.ok (PyVal.listVal [PyVal.bytesLike cls d, v]) := by
  have hbytes : issuperclass (PyVal.bytesLike t d) cls = true := ht
  have hvsup : issuperclass v cls = false := hv
  have hlsup : ∀ ys : List PyVal, issuperclass (PyVal.listVal ys) cls = false :=
    fun _ => hlist
  refine ⟨?_, ?_, ?_, ?_⟩
  · simp [downcastResult, hbytes, clsNew]
  · simp [downcastResult, hvsup, hvseq]
  · simp [downcastResult, hlsup, seq_holdstype, mapDowncast_noop cls xs hxs]
    rfl
  · simp [downcastResult, hlsup, seq_holdstype, mapDowncast, hbytes, hvsup,
      clsNew]
    rfl

/-- C3 witness: the amended characterization at the concrete class
`hexbytes` (superclass `bytearray`), a `bytearray`-typed result, an
`int`-typed result and a mixed list. -/
theorem C3_downcast_characterization_witness :
    (hexbytesType.mro.contains bytearrayType.name = true ∧
     hexbytesType.mro.contains (PyVal.intVal 5).typeOf.name = false ∧
     seq_holdstype (PyVal.intVal 5) = false ∧
     hexbytesType.mro.contains listType.name = false ∧
     ∀ x ∈ [PyVal.noneVal], hexbytesType.mro.contains x.typeOf.name = false) ∧
    (downcastResult hexbytesType (PyVal.bytesLike bytearrayType [1, 255]) =
        Except.ok (PyVal.bytesLike hexbytesType [1, 255]) ∧
     downcastResult hexbytesType (PyVal.intVal 5) =
        Except.ok (PyVal.intVal 5) ∧
     downcastResult hexbytesType (PyVal.listVal [PyVal.noneVal]) =
        Except.ok (PyVal.listVal [PyVal.noneVal]) ∧
     downcastResult hexbytesType
        (PyVal.listVal [PyVal.bytesLike bytearrayType [1, 255], PyVal.intVal 5]) =
        Except.ok (PyVal.listVal
          [PyVal.bytesLike hexbytesType [1, 255], PyVal.intVal 5])) :=
  ⟨⟨rfl, rfl, rfl, rfl, fun x hx => by
      cases hx with
      | head => rfl
      | tail _ h => cases h⟩,
   C3_downcast_characterization hexbytesType bytearrayType [1, 255]
     (PyVal.intVal 5) [PyVal.noneVal] rfl rfl rfl rfl
     (fun x hx => by
       cases hx with
       | head => rfl
       | tail _ h => cases h)⟩
